import Mathlib

/-!
Shallow embedding of the invoice pipeline of the paypal-invoice-generator
repository: the customer/service normalizer (`customerTemplates.js`), the
validator (`invoiceValidator.js`), the payload builder (`invoiceStructure.js`),
the JSON shape dispatcher (`create_invoice_from_json.js`) and the
create-and-send orchestration (`invoiceManager.js`).

Conventions of the embedding:
* JavaScript numbers are modelled as exact rationals (`Rat`); `NaN` never
  arises because every number in the model is a concrete rational.
* Optional string fields are modelled as `String` with `""` standing for
  `undefined`; this is faithful because every read of such a field in the
  source is through the falsy-collapsing `x || default` idiom, which treats
  `""` and `undefined` identically.  Fields whose object-vs-absent status
  matters (addresses, tax/discount sub-objects, the `customer`/`service`/`services`
  members of the input document) are modelled as `Option`.
* Wall-clock time and randomness are injected as explicit parameters
  (`today : Date`, a pre-generated invoice number), mirroring the clock/random
  collaborator of the spec.
-/

/-- The character for a decimal digit below ten (any larger argument is
clamped to the last pattern; all call sites pass values below ten). -/
def digitChar : Nat → Char
  | 0 => '0'
  | 1 => '1'
  | 2 => '2'
  | 3 => '3'
  | 4 => '4'
  | 5 => '5'
  | 6 => '6'
  | 7 => '7'
  | 8 => '8'
  | _ => '9'

theorem digitChar_isDigit (n : Nat) : (digitChar n).isDigit = true := by
  rcases n with _ | _ | _ | _ | _ | _ | _ | _ | _ | n <;> rfl

/-- Fuel-driven base-10 digit expansion (most significant digit first). -/
def natDigitsAux : Nat → Nat → List Char
  | 0, _ => []
  | fuel + 1, n =>
    if n < 10 then [digitChar n]
    else natDigitsAux fuel (n / 10) ++ [digitChar (n % 10)]

theorem natDigitsAux_isDigit (fuel : Nat) :
    ∀ n c, c ∈ natDigitsAux fuel n → c.isDigit = true := by
  induction fuel with
  | zero => intro n c hc; simp [natDigitsAux] at hc
  | succ fuel ih =>
    intro n c hc
    unfold natDigitsAux at hc
    by_cases h : n < 10
    · rw [if_pos h] at hc
      simp at hc
      subst hc
      exact digitChar_isDigit n
    · rw [if_neg h] at hc
      rcases List.mem_append.mp hc with h1 | h2
      · exact ih _ _ h1
      · simp at h2
        subst h2
        exact digitChar_isDigit _
/-- Decimal rendering of a natural number using our own digit expansion
(so that every character is provably a digit). -/
def natToString (n : Nat) : String := ⟨natDigitsAux (n + 1) n⟩

theorem natToString_isDigit (n : Nat) :
    ∀ c ∈ (natToString n).data, c.isDigit = true := fun _ hc =>
  natDigitsAux_isDigit (n + 1) n _ hc

/-- Decimal rendering of an integer. -/
def intToString (i : Int) : String :=
  if i < 0 then "-" ++ natToString i.natAbs else natToString i.natAbs

/-- Function `pad2 n` renders `n` with at least two digits, as in `YYYY-MM-DD` parts. -/
def pad2 (n : Nat) : String :=
  if n < 10 then "0" ++ natToString n else natToString n

/-- Calendar date (proleptic Gregorian), the injected clock value. -/
structure Date where
  year : Nat
  month : Nat
  day : Nat
deriving DecidableEq, Repr

def isLeapYear (y : Nat) : Bool :=
  (y % 4 == 0 && y % 100 != 0) || y % 400 == 0

def daysInMonth (y m : Nat) : Nat :=
  if m = 2 then (if isLeapYear y then 29 else 28)
  else if m = 4 ∨ m = 6 ∨ m = 9 ∨ m = 11 then 30
  else 31

def nextDay (d : Date) : Date :=
  if d.day < daysInMonth d.year d.month then ⟨d.year, d.month, d.day + 1⟩
  else if d.month < 12 then ⟨d.year, d.month + 1, 1⟩
  else ⟨d.year + 1, 1, 1⟩

/-- Models `moment().add(n, days)` on the injected clock value. -/
def addDays (d : Date) : Nat → Date
  | 0 => d
  | n + 1 => nextDay (addDays d n)

/-- Models `moment().format(YYYY-MM-DD)` and `new Date().toISOString().split(T)[0]`. -/
def formatDate (d : Date) : String :=
  natToString d.year ++ "-" ++ pad2 d.month ++ "-" ++ pad2 d.day

/-- The JavaScript `a || b` fallback idiom on strings (`""` is falsy). -/
def jsOr (s dflt : String) : String := if s = "" then dflt else s

/-- The JavaScript `a || b` fallback idiom on numbers (`0` is falsy). -/
def jsOrRat (q dflt : Rat) : Rat := if q = 0 then dflt else q

/-- Negation on rationals computed on the numerator (kernel-reducible form of
the JavaScript unary minus). -/
def jsNeg (q : Rat) : Rat := Rat.divInt (-q.num) q.den

/-- Models `Math.abs`, computed on the numerator. -/
def mathAbs (q : Rat) : Rat := Rat.divInt q.num.natAbs q.den

theorem jsNeg_eq (q : Rat) : jsNeg q = -q := (Rat.neg_def q).symm

theorem mathAbs_eq (q : Rat) : mathAbs q = |q| := by
  rcases le_or_lt 0 q with h | h
  · rw [mathAbs, Int.natAbs_of_nonneg (Rat.num_nonneg.mpr h), Rat.num_divInt_den,
      abs_of_nonneg h]
  · rw [mathAbs, Int.ofNat_natAbs_of_nonpos (le_of_lt (Rat.num_neg.mpr h)),
      ← Rat.neg_def, abs_of_neg h]

/-- Renders a non-negative cent count as `<int>.<2 digits>`. -/
def centsToFixed2 (c : Nat) : String :=
  natToString (c / 100) ++ "." ++ ⟨[digitChar (c % 100 / 10), digitChar (c % 100 % 10)]⟩

/-- The cent count of `|q|` rounded to the nearest integer, ties upward:
`⌊100|q| + 1/2⌋ = (200|num| + den) floordiv (2 den)`, computed on the
numerator and denominator so the kernel can evaluate it. -/
def roundedCents (q : Rat) : Nat :=
  (Int.fdiv (200 * (q.num.natAbs : Int) + (q.den : Int)) (2 * (q.den : Int))).toNat

/-- Models `parseFloat(x).toFixed(2)`: fixed two-decimal rendering of an amount:
round the magnitude to the nearest cent (ties upward) and prepend the sign,
as `Number.prototype.toFixed` specifies. -/
def toFixed2 (q : Rat) : String :=
  if q.num < 0 then "-" ++ centsToFixed2 (roundedCents q)
  else centsToFixed2 (roundedCents q)

/-- Fuel-driven long division producing the fractional digits of `rem / den`. -/
def fracDigits : Nat → Nat → Nat → List Char
  | 0, _, _ => []
  | fuel + 1, rem, den =>
    if rem = 0 then []
    else digitChar (rem * 10 / den) :: fracDigits fuel (rem * 10 % den) den

/-- Models `Number.prototype.toString` for the finite-decimal numbers that occur in
invoice input documents (integers print with no decimal point). -/
def jsNumToString (q : Rat) : String :=
  let sign := if q.num < 0 then "-" else ""
  let n := q.num.natAbs
  let d := q.den
  sign ++ natToString (n / d) ++
    (if n % d = 0 then "" else "." ++ ⟨fracDigits 20 (n % d) d⟩)

/-- All characters of the string are decimal digits. -/
def isDigitStr (s : String) : Prop := ∀ c ∈ s.data, c.isDigit = true

/-- The string consists of a digit string, one decimal point, and exactly two
digits after it. -/
def hasExactlyTwoFracDigits (s : String) : Prop :=
  ∃ pre post, s = pre ++ "." ++ post ∧ post.length = 2 ∧
    isDigitStr pre ∧ isDigitStr post

theorem centsToFixed2_twoFracDigits (c : Nat) :
    hasExactlyTwoFracDigits (centsToFixed2 c) := by
  refine ⟨natToString (c / 100), ⟨[digitChar (c % 100 / 10), digitChar (c % 100 % 10)]⟩,
    rfl, rfl, natToString_isDigit _, ?_⟩
  intro ch hch
  simp [String.data] at hch
  rcases hch with h | h <;> subst h <;> exact digitChar_isDigit _

theorem toFixed2_twoFracDigits (q : Rat) (h : 0 ≤ q) :
    hasExactlyTwoFracDigits (toFixed2 q) := by
  rw [toFixed2, if_neg (not_lt.mpr (Rat.num_nonneg.mpr h))]
  exact centsToFixed2_twoFracDigits _

example : toFixed2 40 = "40.00" := by decide
example : toFixed2 (mkRat 19999 1000) = "20.00" := by decide
example : toFixed2 (-10 : Rat) = "-10.00" := by decide
example : formatDate (addDays ⟨2024, 1, 10⟩ 3) = "2024-01-13" := by decide
example : jsNumToString (1 : Rat) = "1" := by decide
example : jsNumToString (mkRat 5 2) = "2.5" := by decide
example : jsNeg (mathAbs 10) = -10 := by decide

/-! ## Data model (canonical invoice draft, `invoiceData` of the source) -/

/-- A postal address in the canonical draft (string fields; `""` = unset). -/
structure Address where
  line1 : String
  line2 : String
  city : String
  state : String
  postalCode : String
  countryCode : String
deriving DecidableEq, Repr

/-- Tax sub-object optionally attached to a line item. -/
structure TaxInfo where
  name : String
  percent : Option Rat
deriving DecidableEq, Repr

/-- Discount sub-object optionally attached to a line item. -/
structure ItemDiscount where
  percent : Option Rat
  amount : Rat
deriving DecidableEq, Repr

/-- One line item of the canonical draft. -/
structure Item where
  name : String
  description : String
  quantity : Rat
  unitAmount : Rat
  currencyCode : String
  tax : Option TaxInfo
  discount : Option ItemDiscount
deriving DecidableEq, Repr

/-- Canonical customer record (`invoiceData.customer`). -/
structure CustomerInfo where
  firstName : String
  lastName : String
  email : String
  businessName : String
  address : Option Address
  phone : String
  vatNumber : String
deriving DecidableEq, Repr

/-- Canonical business record (`invoiceData.business`). -/
structure BusinessInfo where
  name : String
  firstName : String
  lastName : String
  email : String
  phone : String
  website : String
  taxId : String
  additionalNotes : String
  address : Option Address
deriving DecidableEq, Repr

/-- Optional custom extra-amount breakdown (`invoiceData.customAmount`). -/
structure CustomAmount where
  label : String
  amount : Rat
deriving DecidableEq, Repr

/-- The canonical invoice draft consumed by the validator and the builder. -/
structure InvoiceData where
  customer : CustomerInfo
  business : BusinessInfo
  items : List Item
  currencyCode : String
  note : String
  terms : String
  memo : String
  reference : String
  paymentTerm : String
  allowPartialPayment : Bool
  allowTip : Bool
  invoiceNumber : String
  invoiceDate : String
  dueDate : String
  minimumAmountDue : Rat
  additionalRecipients : List String
  customAmount : Option CustomAmount
deriving DecidableEq, Repr

/-! ## Validator (`invoiceValidator.js`)

`isEmail`, `isISO31661Alpha2` and `isISO4217` stand for the external
`validator` npm library: `isEmail` is a simplified well-formedness check and
the two code predicates are membership in a representative subset of the full
ISO tables.  No claim depends on the library internals beyond accepting the
concrete well-formed values used below. -/

/-- Models `validator.isEmail` (external library), simplified: one `@`, non-empty
local part, domain containing a dot and not starting or ending with one. -/
def isEmail (s : String) : Bool :=
  match s.splitOn "@" with
  | [l, d] =>
    decide (l ≠ "") && decide (d ≠ "") && d.contains '.' &&
      !d.startsWith "." && !d.endsWith "."
  | _ => false

/-- Models `validator.isISO31661Alpha2` (external library), on a representative
subset of the country-code table. -/
def isISO31661Alpha2 (s : String) : Bool :=
  ["US", "IN", "GB", "CA", "AU", "DE", "FR", "NL", "TX"].contains s &&
    decide (s ≠ "TX")

/-- Models `validator.isISO4217` (external library), on a representative subset of
the currency-code table. -/
def isISO4217 (s : String) : Bool :=
  ["USD", "EUR", "GBP", "INR", "CAD", "AUD"].contains s

/-- Result of a validation pass: validity flag plus ordered error list. -/
structure ValidationResult where
  isValid : Bool
  errors : List String
deriving DecidableEq, Repr

/-- Embeds `InvoiceValidator.validateCustomerInfo`. -/
def validateCustomerInfo (c : CustomerInfo) : ValidationResult :=
  let errors :=
    (if c.email = "" ∨ isEmail c.email = false
      then ["Valid customer email is required"] else []) ++
    (if c.firstName = "" ∨ c.firstName.trim.length < 1
      then ["Customer first name is required"] else []) ++
    (if c.lastName = "" ∨ c.lastName.trim.length < 1
      then ["Customer last name is required"] else []) ++
    (match c.address with
     | none => []
     | some a =>
       (if a.line1 ≠ "" ∧ a.line1.length > 300
         then ["Address line 1 must be less than 300 characters"] else []) ++
       (if a.city ≠ "" ∧ a.city.length > 120
         then ["City must be less than 120 characters"] else []) ++
       (if a.countryCode ≠ "" ∧ isISO31661Alpha2 a.countryCode = false
         then ["Country code must be a valid ISO 3166-1 alpha-2 code"] else []))
  { isValid := errors.length == 0, errors := errors }

/-- The per-item error list pushed by the `forEach` body of
`validateInvoiceItems`, with the 0-based `index` of the item. -/
def itemErrorList (index : Nat) (it : Item) : List String :=
  (if it.name = "" ∨ it.name.trim.length = 0
    then ["Item " ++ toString (index + 1) ++ ": Name is required"]
    else if it.name.length > 200
    then ["Item " ++ toString (index + 1) ++ ": Name must be less than 200 characters"]
    else []) ++
  (if it.quantity = 0 ∨ it.quantity ≤ 0
    then ["Item " ++ toString (index + 1) ++ ": Valid quantity is required"] else []) ++
  (if it.unitAmount = 0 ∨ it.unitAmount ≤ 0
    then ["Item " ++ toString (index + 1) ++ ": Valid unit amount is required"] else []) ++
  (if it.currencyCode = "" ∨ isISO4217 it.currencyCode = false
    then ["Item " ++ toString (index + 1) ++ ": Valid currency code is required"] else []) ++
  (if it.description ≠ "" ∧ it.description.length > 1000
    then ["Item " ++ toString (index + 1) ++ ": Description must be less than 1000 characters"]
    else [])

/-- The accumulated errors of the `forEach` loop of `validateInvoiceItems`,
starting at 0-based index `idx`. -/
def itemsErrors : Nat → List Item → List String
  | _, [] => []
  | idx, it :: rest => itemErrorList idx it ++ itemsErrors (idx + 1) rest

/-- Embeds `InvoiceValidator.validateInvoiceItems`. -/
def validateInvoiceItems (items : List Item) : ValidationResult :=
  if items.isEmpty then
    { isValid := false, errors := ["At least one invoice item is required"] }
  else
    let errors := itemsErrors 0 items
    { isValid := errors.length == 0, errors := errors }

/-- Embeds `InvoiceValidator.validateBusinessInfo`. -/
def validateBusinessInfo (b : BusinessInfo) : ValidationResult :=
  let errors :=
    (if b.name = "" ∨ b.name.trim.length = 0
      then ["Business name is required"] else []) ++
    (if b.email = "" ∨ isEmail b.email = false
      then ["Valid business email is required"] else [])
  { isValid := errors.length == 0, errors := errors }

/-- Embeds `InvoiceValidator.validateCompleteInvoice`: concatenates the errors of the
three check groups, each appended only when its group reported invalid
(exactly as the sequential `if (!group.isValid)` pushes of the source). -/
def validateCompleteInvoice (d : InvoiceData) : ValidationResult :=
  let customerValidation := validateCustomerInfo d.customer
  let itemsValidation := validateInvoiceItems d.items
  let businessValidation := validateBusinessInfo d.business
  let e1 := if customerValidation.isValid then [] else customerValidation.errors
  let e2 := e1 ++ (if itemsValidation.isValid then [] else itemsValidation.errors)
  let allErrors := e2 ++ (if businessValidation.isValid then [] else businessValidation.errors)
  { isValid := allErrors.length == 0, errors := allErrors }

/-! ## Payload builder (`invoiceStructure.js`, `createPayPalInvoicePayload`)

Wall-clock time (`moment()`) is injected as `today : Date` and the
timestamp-and-random invoice number generator as `generatedNumber : String`,
per the clock/random collaborator of the spec. -/

/-- A currency-tagged amount in the wire payload. -/
structure Money where
  currency_code : String
  value : String
deriving DecidableEq, Repr

structure PayloadTax where
  name : String
  percent : String
deriving DecidableEq, Repr

structure PayloadItemDiscount where
  percent : Option String
  amount : Option Money
deriving DecidableEq, Repr

structure PayloadItem where
  name : String
  description : String
  quantity : String
  unit_amount : Money
  tax : Option PayloadTax
  discount : Option PayloadItemDiscount
  unit_of_measure : String
deriving DecidableEq, Repr

structure PaymentTerm where
  term_type : String
  due_date : String
deriving DecidableEq, Repr

structure PayloadDetail where
  invoice_number : String
  reference : String
  invoice_date : String
  currency_code : String
  note : String
  term : String
  memo : String
  payment_term : PaymentTerm
deriving DecidableEq, Repr

structure NamePair where
  given_name : String
  surname : String
deriving DecidableEq, Repr

structure PayloadAddress where
  address_line_1 : String
  address_line_2 : String
  admin_area_2 : String
  admin_area_1 : String
  postal_code : String
  country_code : String
deriving DecidableEq, Repr

structure PayloadInvoicer where
  name : NamePair
  address : PayloadAddress
  website : String
  tax_id : String
  additional_notes : String
deriving DecidableEq, Repr

structure PayloadPhone where
  country_code : String
  national_number : String
  phone_type : String
deriving DecidableEq, Repr

structure BillingInfo where
  name : NamePair
  address : Option PayloadAddress
  email_address : String
  phones : List PayloadPhone
  business_name : String
  additional_info_value : String
deriving DecidableEq, Repr

structure PartialPayment where
  allow_partial_payment : Bool
  minimum_amount_due : Option Money
deriving DecidableEq, Repr

structure PayloadConfiguration where
  partial_payment : PartialPayment
  allow_tip : Bool
  tax_calculated_after_discount : Bool
  tax_inclusive : Bool
deriving DecidableEq, Repr

structure CustomBreakdown where
  label : String
  amount : Money
deriving DecidableEq, Repr

/-- The PayPal API v2 wire payload produced by the builder. -/
structure InvoicePayload where
  detail : PayloadDetail
  invoicer : PayloadInvoicer
  primary_recipients : List BillingInfo
  items : List PayloadItem
  configuration : PayloadConfiguration
  additional_recipients : Option (List String)
  amount : Option CustomBreakdown
deriving DecidableEq, Repr

/-- Models `business.address?.field || dflt`: optional chaining then falsy fallback. -/
def optChain (a : Option Address) (f : Address → String) (dflt : String) : String :=
  jsOr ((a.map f).getD "") dflt

/-- Models `str.replace(/\D/g, "")`: keep the decimal digits only. -/
def stripNonDigits (s : String) : String := ⟨s.data.filter Char.isDigit⟩

/-- The map of one draft item to a wire item (the `items.map` callback),
taking the draft-level currency fallback chain into account. -/
def itemToPayload (draftCurrency : String) (it : Item) : PayloadItem :=
  { name := it.name
    description := jsOr it.description ""
    quantity := jsNumToString it.quantity
    unit_amount :=
      { currency_code := jsOr it.currencyCode (jsOr draftCurrency "USD")
        value := toFixed2 it.unitAmount }
    tax := it.tax.map fun tx =>
      { name := jsOr tx.name "Tax"
        percent := match tx.percent with
          | some p => jsNumToString p
          | none => "0" }
    discount := it.discount.map fun dc =>
      let dcAmount := dc.amount
      { percent := dc.percent.map jsNumToString
        amount :=
          if dcAmount = 0 then none
          else some
            { currency_code := jsOr it.currencyCode (jsOr draftCurrency "USD")
              value := toFixed2 dcAmount } }
    unit_of_measure := "QUANTITY" }

/-- Embeds `InvoiceStructure.createPayPalInvoicePayload`. -/
def createPayPalInvoicePayload (today : Date) (generatedNumber : String)
    (d : InvoiceData) : InvoicePayload :=
  { detail :=
      { invoice_number := jsOr d.invoiceNumber generatedNumber
        reference := jsOr d.reference ""
        invoice_date := jsOr d.invoiceDate (formatDate today)
        currency_code := jsOr d.currencyCode "USD"
        note := jsOr d.note "Thank you for your business."
        term := jsOr d.terms "Payment due within 30 days."
        memo := jsOr d.memo ""
        payment_term :=
          { term_type := "DUE_ON_DATE_SPECIFIED"
            due_date := jsOr d.dueDate (formatDate (addDays today 3)) } }
    invoicer :=
      { name :=
          { given_name := jsOr d.business.firstName ""
            surname := jsOr d.business.lastName "" }
        address :=
          { address_line_1 := optChain d.business.address Address.line1 ""
            address_line_2 := optChain d.business.address Address.line2 ""
            admin_area_2 := optChain d.business.address Address.city ""
            admin_area_1 := optChain d.business.address Address.state ""
            postal_code := optChain d.business.address Address.postalCode ""
            country_code := optChain d.business.address Address.countryCode "US" }
        website := jsOr d.business.website ""
        tax_id := jsOr d.business.taxId ""
        additional_notes := jsOr d.business.additionalNotes "" }
    primary_recipients :=
      [{ name :=
           { given_name := d.customer.firstName
             surname := d.customer.lastName }
         address := d.customer.address.map fun a =>
           { address_line_1 := jsOr a.line1 ""
             address_line_2 := jsOr a.line2 ""
             admin_area_2 := jsOr a.city ""
             admin_area_1 := jsOr a.state ""
             postal_code := jsOr a.postalCode ""
             country_code := jsOr a.countryCode "US" }
         email_address := d.customer.email
         phones :=
           if d.customer.phone = "" then []
           else [{ country_code := "1"
                   national_number := stripNonDigits d.customer.phone
                   phone_type := "HOME" }]
         business_name := jsOr d.customer.businessName ""
         additional_info_value := jsOr d.customer.vatNumber "" }]
    items := d.items.map (itemToPayload d.currencyCode)
    configuration :=
      { partial_payment :=
          { allow_partial_payment := d.allowPartialPayment
            minimum_amount_due :=
              if d.minimumAmountDue = 0 then none
              else some
                { currency_code := jsOr d.currencyCode "USD"
                  value := toFixed2 d.minimumAmountDue } }
        allow_tip := d.allowTip
        tax_calculated_after_discount := true
        tax_inclusive := false }
    additional_recipients :=
      if d.additionalRecipients.isEmpty then none else some d.additionalRecipients
    amount := d.customAmount.map fun ca =>
      { label := jsOr ca.label "Additional Charges"
        amount :=
          { currency_code := jsOr d.currencyCode "USD"
            value := toFixed2 ca.amount } } }

/-! ## Normalizer (`customerTemplates.js`)

Environment-variable business configuration is injected as a `BizEnv` record
(`""` = variable unset), matching the `process.env.X || default` reads. -/

/-- Raw address attached to an input customer (`""` = field absent). -/
structure AddressInput where
  line1 : String
  street : String
  line2 : String
  city : String
  state : String
  postalCode : String
  zip : String
  countryCode : String
deriving DecidableEq, Repr

/-- Raw customer object of an input document (`""` = field absent). -/
structure CustomerInput where
  firstName : String
  lastName : String
  name : String
  email : String
  businessName : String
  companyName : String
  phone : String
  vatNumber : String
  address : Option AddressInput
deriving DecidableEq, Repr

/-- Raw service object of an input document (`stype` is the `type` tag;
`""`/`0` = field absent). -/
structure ServiceInput where
  stype : String
  price : Rat
  quantity : Rat
  url : String
  title : String
  anchorText : String
  description : String
  currency : String
deriving DecidableEq, Repr

/-- The `serviceDetails` argument of the template builders (`""`/`0` =
field absent). -/
structure ServiceDetails where
  serviceName : String
  url : String
  title : String
  anchorText : String
  description : String
  publicationDate : String
  insertionDate : String
  note : String
  memo : String
  reference : String
  currency : String
  price : Rat
  quantity : Rat
deriving DecidableEq, Repr

/-- Raw discount object of an input document. -/
structure DiscountInput where
  amount : Rat
  description : String
deriving DecidableEq, Repr

/-- The `process.env.BUSINESS_*` configuration (`""` = variable unset). -/
structure BizEnv where
  businessName : String
  businessEmail : String
  businessPhone : String
  businessWebsite : String
  addressLine1 : String
  addressLine2 : String
  city : String
  state : String
  postalCode : String
  country : String
deriving DecidableEq, Repr

/-- The shared customer-normalization block of `createGuestPostInvoice` and
`createMultiItemFromJSON`: alias mapping for names and address fields plus
first-space name splitting of a combined display name. -/
def normalizeCustomer (c : CustomerInput) : CustomerInfo :=
  { firstName := jsOr c.firstName (jsOr ((c.name.splitOn " ").headD "") "Customer")
    lastName := jsOr c.lastName
      (jsOr (String.intercalate " " ((c.name.splitOn " ").drop 1)) "")
    email := c.email
    businessName := jsOr c.businessName (jsOr c.companyName "")
    address := c.address.map fun a =>
      { line1 := jsOr a.line1 (jsOr a.street "")
        line2 := jsOr a.line2 ""
        city := jsOr a.city ""
        state := jsOr a.state ""
        postalCode := jsOr a.postalCode (jsOr a.zip "")
        countryCode := jsOr a.countryCode "US" }
    phone := jsOr c.phone ""
    vatNumber := jsOr c.vatNumber "" }

/-- The business block of the templates, read from the environment
configuration with the fallbacks of the source. -/
def businessFromEnv (env : BizEnv) : BusinessInfo :=
  { name := jsOr env.businessName "TG Media. Tech Geekers"
    firstName := "TG Media"
    lastName := "Tech Geekers"
    email := jsOr env.businessEmail "billing@techgeekers.com"
    phone := jsOr env.businessPhone ""
    website := jsOr env.businessWebsite ""
    taxId := ""
    additionalNotes := ""
    address := some
      { line1 := jsOr env.addressLine1 ""
        line2 := jsOr env.addressLine2 ""
        city := jsOr env.city ""
        state := jsOr env.state ""
        postalCode := jsOr env.postalCode ""
        countryCode := jsOr env.country "IN" } }

/-- Embeds `CustomerTemplates.createServiceDescription` (guest posts). -/
def createServiceDescription (sd : ServiceDetails) : String :=
  ((jsOr sd.serviceName "Guest Post Publication") ++
    (if sd.url ≠ "" then "\nPublished URL: " ++ sd.url else "") ++
    (if sd.title ≠ "" then "\nArticle Title: " ++ sd.title else "") ++
    (if sd.description ≠ "" then "\nDetails: " ++ sd.description else "") ++
    (if sd.publicationDate ≠ "" then "\nPublication Date: " ++ sd.publicationDate else "")).trim

/-- Embeds `CustomerTemplates.createLinkInsertionDescription`. -/
def createLinkInsertionDescription (sd : ServiceDetails) : String :=
  ("Link Insertion Service" ++
    (if sd.url ≠ "" then "\nTarget URL: " ++ sd.url else "") ++
    (if sd.anchorText ≠ "" then "\nAnchor Text: " ++ sd.anchorText else "") ++
    (if sd.insertionDate ≠ "" then "\nInsertion Date: " ++ sd.insertionDate else "") ++
    (if sd.description ≠ "" then "\nDetails: " ++ sd.description else "")).trim

/-- Embeds `CustomerTemplates.createGuestPostInvoice`. -/
def createGuestPostInvoice (env : BizEnv) (ci : CustomerInput)
    (sd : ServiceDetails) : InvoiceData :=
  { customer := normalizeCustomer ci
    business := businessFromEnv env
    items := [
      { name := jsOr sd.serviceName "Guest Post Publication"
        description := createServiceDescription sd
        quantity := jsOrRat sd.quantity 1
        unitAmount := jsOrRat sd.price 0
        currencyCode := jsOr sd.currency "USD"
        tax := none
        discount := none }]
    currencyCode := jsOr sd.currency "USD"
    note := jsOr sd.note
      "Thank you for choosing our guest post services. Payment is due within 3 days."
    terms := "Payment due within 3 days. No refunds for digital services once delivered."
    memo := jsOr sd.memo ""
    reference := jsOr sd.reference (jsOr sd.url "")
    paymentTerm := "DUE_ON_DATE_SPECIFIED"
    allowPartialPayment := false
    allowTip := false
    invoiceNumber := ""
    invoiceDate := ""
    dueDate := ""
    minimumAmountDue := 0
    additionalRecipients := []
    customAmount := none }

/-- Embeds `CustomerTemplates.createLinkInsertionInvoice`: the guest-post template
with the service name overridden, then the items list replaced. -/
def createLinkInsertionInvoice (env : BizEnv) (ci : CustomerInput)
    (sd : ServiceDetails) : InvoiceData :=
  let base := createGuestPostInvoice env ci { sd with serviceName := "Link Insertion Service" }
  { base with items := [
      { name := "Link Insertion Service"
        description := createLinkInsertionDescription sd
        quantity := jsOrRat sd.quantity 1
        unitAmount := jsOrRat sd.price 0
        currencyCode := jsOr sd.currency "USD"
        tax := none
        discount := none }] }

/-- The error raised for a `type` tag other than the two recognized services
(the source message quotes the two accepted tags). -/
def unknownServiceTypeMsg (stype : String) : String :=
  "Unknown service type: " ++ stype ++ ". Use guest_post or link_insertion"

/-- Embeds `CustomerTemplates.createFromJSON`: single-service dispatch on the
`type` tag; wall-clock date injected for the publication/insertion date. -/
def createFromJSON (today : Date) (env : BizEnv) (ci : CustomerInput)
    (s : ServiceInput) : Except String InvoiceData :=
  if s.stype = "guest_post" then
    Except.ok (createGuestPostInvoice env ci
      { serviceName := "Guest Post Publication"
        url := jsOr s.url ""
        title := jsOr s.title ""
        anchorText := ""
        description := jsOr s.description
          "High-quality guest post article published on techgeekers.com"
        publicationDate := formatDate today
        insertionDate := ""
        note := ""
        memo := ""
        reference := ""
        currency := ""
        price := s.price
        quantity := 0 })
  else if s.stype = "link_insertion" then
    Except.ok (createLinkInsertionInvoice env ci
      { serviceName := "Link Insertion Service"
        url := jsOr s.url ""
        title := ""
        anchorText := jsOr s.anchorText ""
        description := jsOr s.description
          "Professional link insertion service on techgeekers.com"
        publicationDate := ""
        insertionDate := formatDate today
        note := ""
        memo := ""
        reference := ""
        currency := ""
        price := s.price
        quantity := 0 })
  else
    Except.error (unknownServiceTypeMsg s.stype)

/-- Models `services.length > 1 ? " #" + (index + 1) : ""` of the multi-item map. -/
def itemNumberSuffix (total idx : Nat) : String :=
  if total > 1 then " #" ++ toString (idx + 1) else ""

/-- The body of the `services.map` callback of `createMultiItemFromJSON`
(0-based `idx`, `total` services overall). -/
def serviceToItem (today : Date) (total idx : Nat) (s : ServiceInput) :
    Except String Item :=
  if s.stype = "guest_post" then
    Except.ok
      { name := "Guest Post Publication" ++ itemNumberSuffix total idx
        description := createServiceDescription
          { serviceName := "Guest Post Publication" ++ itemNumberSuffix total idx
            url := jsOr s.url ""
            title := jsOr s.title ""
            anchorText := ""
            description := jsOr s.description
              "High-quality guest post article published on techgeekers.com"
            publicationDate := formatDate today
            insertionDate := ""
            note := ""
            memo := ""
            reference := ""
            currency := ""
            price := 0
            quantity := 0 }
        quantity := jsOrRat s.quantity 1
        unitAmount := jsOrRat s.price 0
        currencyCode := jsOr s.currency "USD"
        tax := none
        discount := none }
  else if s.stype = "link_insertion" then
    Except.ok
      { name := "Link Insertion Service" ++ itemNumberSuffix total idx
        description := createLinkInsertionDescription
          { serviceName := ""
            url := jsOr s.url ""
            title := ""
            anchorText := jsOr s.anchorText ""
            description := jsOr s.description
              "Professional link insertion service on techgeekers.com"
            publicationDate := ""
            insertionDate := formatDate today
            note := ""
            memo := ""
            reference := ""
            currency := ""
            price := 0
            quantity := 0 }
        quantity := jsOrRat s.quantity 1
        unitAmount := jsOrRat s.price 0
        currencyCode := jsOr s.currency "USD"
        tax := none
        discount := none }
  else
    Except.error (unknownServiceTypeMsg s.stype)

/-- The indexed `services.map` of `createMultiItemFromJSON`; the first
unknown `type` tag raises. -/
def buildServiceItems (today : Date) (total : Nat) :
    Nat → List ServiceInput → Except String (List Item)
  | _, [] => Except.ok []
  | idx, s :: rest =>
    match serviceToItem today total idx s with
    | Except.error e => Except.error e
    | Except.ok it =>
      match buildServiceItems today total (idx + 1) rest with
      | Except.error e => Except.error e
      | Except.ok restItems => Except.ok (it :: restItems)

/-- The synthetic adjustment line appended by `createMultiItemFromJSON` when
a discount with positive amount is supplied (`unitAmount` is
`-Math.abs(amount)`); otherwise nothing is appended. -/
def discountItems : Option DiscountInput → List Item
  | none => []
  | some dc =>
    if 0 < dc.amount then
      [{ name := "Discount"
         description := jsOr dc.description "Bulk order discount"
         quantity := 1
         unitAmount := jsNeg (mathAbs dc.amount)
         currencyCode := "USD"
         tax := none
         discount := none }]
    else []

/-- The multi-item input record handed to `createMultiItemFromJSON`. -/
structure MultiItemInput where
  customer : CustomerInput
  services : List ServiceInput
  discount : Option DiscountInput
  note : String
  memo : String
  reference : String
deriving DecidableEq, Repr

/-- The error raised when the services array is missing or empty. -/
def emptyServicesMsg : String :=
  "Services array is required and must contain at least one service"

/-- Embeds `CustomerTemplates.createMultiItemFromJSON`. -/
def createMultiItemFromJSON (today : Date) (env : BizEnv)
    (inp : MultiItemInput) : Except String InvoiceData :=
  if inp.services.isEmpty then Except.error emptyServicesMsg
  else
    match buildServiceItems today inp.services.length 0 inp.services with
    | Except.error e => Except.error e
    | Except.ok base =>
      Except.ok
      { customer := normalizeCustomer inp.customer
        business := businessFromEnv env
        items := base ++ discountItems inp.discount
        currencyCode := "USD"
        note := jsOr inp.note
          ("Thank you for choosing our services. " ++
            (if inp.services.length > 1 then "Bulk order" else "Service") ++
            " payment is due within 3 days.")
        terms := "Payment due within 3 days. No refunds for digital services once delivered."
        memo := jsOr inp.memo ""
        reference := jsOr inp.reference ""
        paymentTerm := "DUE_ON_DATE_SPECIFIED"
        allowPartialPayment := false
        allowTip := false
        invoiceNumber := ""
        invoiceDate := ""
        dueDate := ""
        minimumAmountDue := 0
        additionalRecipients := []
        customAmount := none }

/-! ## JSON shape dispatch (`create_invoice_from_json.js`, `parseInvoiceData`)

The source detects the input variant by field presence: a `services` array
without `customer` routes to the repeat-customer bulk template, `services`
with `customer` to the multi-item template, `service` with `customer` to the
single-service template, and anything else raises the invalid-format error.
A present-but-empty `services` array is truthy in JavaScript, so it still
selects the bulk branch and fails inside `createMultiItemFromJSON`. -/

/-- A loosely-typed input document (`Option` = field present or not). -/
structure JsonInput where
  customer : Option CustomerInput
  service : Option ServiceInput
  services : Option (List ServiceInput)
  discount : Option DiscountInput
  note : String
  memo : String
  reference : String
deriving DecidableEq, Repr

/-- The pre-filled repeat-customer identity of the bulk template
(`createExampleFromJSON` in `customerTemplates.js`; the runner script refers
to the same function under the name of the repeat customer). -/
def exampleCustomer : CustomerInput :=
  { firstName := "Example"
    lastName := "Customer"
    name := ""
    email := "customer@example.com"
    businessName := "Example Company"
    companyName := ""
    phone := ""
    vatNumber := ""
    address := none }

/-- The `serviceData` argument of the repeat-customer template: either a
bulk document (with a `services` array) or a bare single-service object. -/
structure ExampleServiceData where
  services : Option (List ServiceInput)
  discount : Option DiscountInput
  note : String
  memo : String
  reference : String
  single : ServiceInput
deriving DecidableEq, Repr

/-- Embeds `CustomerTemplates.createExampleFromJSON`: pre-fills the repeat-customer
identity, then routes on the presence of a `services` array. -/
def createExampleFromJSON (today : Date) (env : BizEnv)
    (sd : ExampleServiceData) : Except String InvoiceData :=
  match sd.services with
  | some svcs =>
    createMultiItemFromJSON today env
      { customer := exampleCustomer
        services := svcs
        discount := sd.discount
        note := sd.note
        memo := sd.memo
        reference := sd.reference }
  | none => createFromJSON today env exampleCustomer sd.single

/-- The error raised when neither `service` nor `services` is present. -/
def invalidShapeMsg : String :=
  "Invalid JSON format. Must have either \"service\" or \"services\" field."

/-- A placeholder service record standing for the absent single-service
fields of a bulk document (never read on the branch that uses it). -/
def emptyServiceInput : ServiceInput :=
  { stype := "", price := 0, quantity := 0, url := "", title := ""
    anchorText := "", description := "", currency := "" }

/-- Embeds `parseInvoiceData` of `create_invoice_from_json.js`. -/
def parseInvoiceData (today : Date) (env : BizEnv) (j : JsonInput) :
    Except String InvoiceData :=
  match j.services, j.customer with
  | some svcs, none =>
    createExampleFromJSON today env
      { services := some svcs
        discount := j.discount
        note := j.note
        memo := j.memo
        reference := j.reference
        single := emptyServiceInput }
  | some svcs, some c =>
    createMultiItemFromJSON today env
      { customer := c
        services := svcs
        discount := j.discount
        note := j.note
        memo := j.memo
        reference := j.reference }
  | none, _ =>
    match j.service, j.customer with
    | some s, some c => createFromJSON today env c s
    | _, _ => Except.error invalidShapeMsg

/-- The normalize-then-preview sequencing of the runner script
(`parseInvoiceData` followed by `InvoiceManager.previewInvoice`), with the
validator and builder passed in as parameters: the flow only reaches them
after normalization succeeds. -/
def previewFlow (validate : InvoiceData → ValidationResult)
    (build : InvoiceData → InvoicePayload) (today : Date) (env : BizEnv)
    (j : JsonInput) : Except String InvoicePayload :=
  match parseInvoiceData today env j with
  | Except.error e => Except.error e
  | Except.ok d =>
    let v := validate d
    if v.isValid then Except.ok (build d)
    else Except.error ("Validation failed:\n" ++ String.intercalate "\n" v.errors)

/-! ## Create-and-send orchestration (`invoiceManager.js`)

The transport collaborator is abstracted: the outcomes of the create call and
of the send call are inputs, and the interaction of the orchestration with the
outside world is recorded as an action trace (create call, fixed delay in
milliseconds, send call). -/

/-- The normalized result record of `InvoiceManager.createInvoice`. -/
structure CreateResult where
  success : Bool
  invoiceId : String
  invoiceNumber : String
  status : String
  invoicerViewUrl : String
  recipientViewUrl : String
  totalAmount : String
  currency : String
  error : Option String
deriving DecidableEq, Repr

/-- The normalized result record of `InvoiceManager.sendInvoice`. -/
structure SendResult where
  success : Bool
  error : Option String
deriving DecidableEq, Repr

/-- One externally visible step of the orchestration. -/
inductive OrchestratorAction where
  | createCall : OrchestratorAction
  | delayMs : Nat → OrchestratorAction
  | sendCall : OrchestratorAction
deriving DecidableEq, Repr

/-- The aggregated record returned by `createAndSendInvoice` when the create
step succeeded. -/
structure CombinedResult where
  success : Bool
  invoiceId : String
  invoiceNumber : String
  totalAmount : String
  currency : String
  invoicerViewUrl : String
  recipientViewUrl : String
  sent : Bool
  sendError : Option String
deriving DecidableEq, Repr

/-- The two possible return shapes of `createAndSendInvoice`: the create
failure record passed through unchanged, or the aggregated record. -/
inductive CreateAndSendOutcome where
  | createFailed : CreateResult → CreateAndSendOutcome
  | completed : CombinedResult → CreateAndSendOutcome
deriving DecidableEq, Repr

/-- Embeds `InvoiceManager.createAndSendInvoice`: run the create step; on failure
return its record unchanged; on success wait the fixed 2000 ms delay, run the
send step, and aggregate both results. -/
def createAndSendInvoice (createResult : CreateResult) (sendResult : SendResult) :
    CreateAndSendOutcome × List OrchestratorAction :=
  if createResult.success = false then
    (CreateAndSendOutcome.createFailed createResult, [OrchestratorAction.createCall])
  else
    (CreateAndSendOutcome.completed
      { success := sendResult.success
        invoiceId := createResult.invoiceId
        invoiceNumber := createResult.invoiceNumber
        totalAmount := createResult.totalAmount
        currency := createResult.currency
        invoicerViewUrl := createResult.invoicerViewUrl
        recipientViewUrl := createResult.recipientViewUrl
        sent := sendResult.success
        sendError := sendResult.error },
      [OrchestratorAction.createCall, OrchestratorAction.delayMs 2000,
        OrchestratorAction.sendCall])

/-! ## Re-normalization helpers (for the idempotence property)

A canonical draft, read back as a loosely-typed document: its JavaScript
object carries `customer`, `items`, `note`, `memo`, `reference` and so on,
but no `service` or `services` member. -/

/-- A canonical address read back as a raw input address. -/
def addressAsInput (a : Address) : AddressInput :=
  { line1 := a.line1, street := "", line2 := a.line2, city := a.city
    state := a.state, postalCode := a.postalCode, zip := ""
    countryCode := a.countryCode }

/-- A canonical customer read back as a raw input customer. -/
def customerInfoAsInput (c : CustomerInfo) : CustomerInput :=
  { firstName := c.firstName, lastName := c.lastName, name := ""
    email := c.email, businessName := c.businessName, companyName := ""
    phone := c.phone, vatNumber := c.vatNumber
    address := c.address.map addressAsInput }

/-- A canonical draft read back as a loosely-typed input document: the
fields `parseInvoiceData` inspects are `customer` (present), `service`
(absent) and `services` (absent). -/
def draftAsJsonInput (d : InvoiceData) : JsonInput :=
  { customer := some (customerInfoAsInput d.customer)
    service := none
    services := none
    discount := none
    note := d.note
    memo := d.memo
    reference := d.reference }

/-! ## Concrete fixtures -/

/-- A fixed injected clock value for concrete evaluations. -/
def t0 : Date := ⟨2025, 1, 2⟩

/-- An environment with no `BUSINESS_*` variable set (all defaults apply). -/
def env0 : BizEnv :=
  { businessName := "", businessEmail := "", businessPhone := ""
    businessWebsite := "", addressLine1 := "", addressLine2 := ""
    city := "", state := "", postalCode := "", country := "" }

/-- A concrete input customer. -/
def cust0 : CustomerInput :=
  { firstName := "John", lastName := "Doe", name := ""
    email := "john@example.com", businessName := "", companyName := ""
    phone := "", vatNumber := "", address := none }

/-- A concrete guest-post service entry. -/
def svcGuest : ServiceInput :=
  { stype := "guest_post", price := 40, quantity := 0, url := ""
    title := "", anchorText := "", description := "", currency := "" }

/-- A concrete link-insertion service entry. -/
def svcLink : ServiceInput :=
  { stype := "link_insertion", price := 20, quantity := 0, url := ""
    title := "", anchorText := "Client Link", description := "", currency := "" }

/-- An all-defaults draft used as a base for concrete drafts and as the
fallback of `okOr`. -/
def emptyDraft : InvoiceData :=
  { customer :=
      { firstName := "", lastName := "", email := "", businessName := ""
        address := none, phone := "", vatNumber := "" }
    business :=
      { name := "", firstName := "", lastName := "", email := "", phone := ""
        website := "", taxId := "", additionalNotes := "", address := none }
    items := []
    currencyCode := ""
    note := ""
    terms := ""
    memo := ""
    reference := ""
    paymentTerm := ""
    allowPartialPayment := false
    allowTip := false
    invoiceNumber := ""
    invoiceDate := ""
    dueDate := ""
    minimumAmountDue := 0
    additionalRecipients := []
    customAmount := none }

/-- Extracts the draft of a successful normalization (fallback for errors). -/
def okOr (dflt : InvoiceData) : Except String InvoiceData → InvoiceData
  | Except.ok d => d
  | Except.error _ => dflt

/-! ## Helper lemmas -/

theorem beq_length_zero_eq_isEmpty (l : List String) : (l.length == 0) = l.isEmpty := by
  cases l <;> rfl

theorem validateCustomerInfo_isValid_def (c : CustomerInfo) :
    (validateCustomerInfo c).isValid = ((validateCustomerInfo c).errors.length == 0) := rfl

theorem validateInvoiceItems_isValid_def (items : List Item) :
    (validateInvoiceItems items).isValid = ((validateInvoiceItems items).errors.length == 0) := by
  unfold validateInvoiceItems
  split <;> rfl

theorem validateBusinessInfo_isValid_def (b : BusinessInfo) :
    (validateBusinessInfo b).isValid = ((validateBusinessInfo b).errors.length == 0) := rfl

theorem errors_eq_nil_of_isValid {v : ValidationResult}
    (hdef : v.isValid = (v.errors.length == 0)) (h : v.isValid = true) :
    v.errors = [] := by
  rw [hdef] at h
  simp only [beq_iff_eq] at h
  exact List.length_eq_zero.mp h

/-- C6: the complete-invoice validator runs all three check groups and its
error list is the concatenation customer errors ++ item errors ++ business
errors, with the validity flag true exactly when that list is empty. -/
theorem validateCompleteInvoice_aggregation (d : InvoiceData) :
    (validateCompleteInvoice d).errors =
      (validateCustomerInfo d.customer).errors ++
      (validateInvoiceItems d.items).errors ++
      (validateBusinessInfo d.business).errors ∧
    (validateCompleteInvoice d).isValid = (validateCompleteInvoice d).errors.isEmpty := by
  constructor
  · show (let cv := validateCustomerInfo d.customer
          let iv := validateInvoiceItems d.items
          let bv := validateBusinessInfo d.business
          let e1 := if cv.isValid then [] else cv.errors
          let e2 := e1 ++ (if iv.isValid then [] else iv.errors)
          let allErrors := e2 ++ (if bv.isValid then [] else bv.errors)
          allErrors) = _
    by_cases hc : (validateCustomerInfo d.customer).isValid <;>
      by_cases hi : (validateInvoiceItems d.items).isValid <;>
        by_cases hb : (validateBusinessInfo d.business).isValid <;>
          simp only [hc, hi, hb, if_true, if_false, eq_self_iff_true,
            errors_eq_nil_of_isValid (validateCustomerInfo_isValid_def d.customer),
            errors_eq_nil_of_isValid (validateInvoiceItems_isValid_def d.items),
            errors_eq_nil_of_isValid (validateBusinessInfo_isValid_def d.business),
            List.nil_append, List.append_nil, if_pos, if_neg,
            Bool.not_eq_true]
  · show ((let cv := validateCustomerInfo d.customer
           let iv := validateInvoiceItems d.items
           let bv := validateBusinessInfo d.business
           let e1 := if cv.isValid then [] else cv.errors
           let e2 := e1 ++ (if iv.isValid then [] else iv.errors)
           let allErrors := e2 ++ (if bv.isValid then [] else bv.errors)
           allErrors).length == 0) = _
    exact beq_length_zero_eq_isEmpty _

theorem mem_itemErrorList_unitAmount (idx : Nat) (it : Item)
    (h : it.unitAmount ≤ 0) :
    ("Item " ++ toString (idx + 1) ++ ": Valid unit amount is required") ∈
      itemErrorList idx it := by
  unfold itemErrorList
  rw [if_pos (Or.inr h)]
  simp

theorem mem_itemsErrors_unitAmount (items : List Item) :
    ∀ (k i : Nat) (it : Item), items.get? i = some it → it.unitAmount ≤ 0 →
      ("Item " ++ toString (k + i + 1) ++ ": Valid unit amount is required") ∈
        itemsErrors k items := by
  induction items with
  | nil => intro k i it h; simp at h
  | cons a rest ih =>
    intro k i it hget hle
    cases i with
    | zero =>
      simp at hget
      subst hget
      unfold itemsErrors
      refine List.mem_append.mpr (Or.inl ?_)
      simpa using mem_itemErrorList_unitAmount k a hle
    | succ i =>
      unfold itemsErrors
      refine List.mem_append.mpr (Or.inr ?_)
      have h2 := ih (k + 1) i it (by simpa using hget) hle
      rw [show k + (i + 1) + 1 = k + 1 + i + 1 from by omega]
      exact h2

/-- C1: an item whose unit amount is zero or negative (for example the
own negative discount adjustment item of the normalizer) makes the item validator
report the per-item unit-amount error at its 1-based index and renders the
result invalid. -/
theorem validateInvoiceItems_rejects_nonpositive_unitAmount
    (items : List Item) (i : Nat) (it : Item)
    (hget : items.get? i = some it) (hle : it.unitAmount ≤ 0) :
    ("Item " ++ toString (i + 1) ++ ": Valid unit amount is required") ∈
      (validateInvoiceItems items).errors ∧
    (validateInvoiceItems items).isValid = false := by
  have hne : items.isEmpty = false := by
    cases items
    · simp at hget
    · rfl
  have hmem := mem_itemsErrors_unitAmount items 0 i it hget hle
  rw [Nat.zero_add] at hmem
  constructor
  · simpa [validateInvoiceItems, hne] using hmem
  · have hnil : itemsErrors 0 items ≠ [] := List.ne_nil_of_mem hmem
    simp only [validateInvoiceItems, hne, Bool.false_eq_true, if_false]
    cases h : itemsErrors 0 items with
    | nil => exact absurd h hnil
    | cons x xs => simp [h]

/-- A well-formed billable line item. -/
def demoOkItem : Item :=
  { name := "Guest Post Publication", description := "", quantity := 1
    unitAmount := 40, currencyCode := "USD", tax := none, discount := none }

/-- The shape of the discount adjustment line the normalizer emits for amount 10. -/
def demoDiscountItem : Item :=
  { name := "Discount", description := "Bulk order discount", quantity := 1
    unitAmount := -10, currencyCode := "USD", tax := none, discount := none }

theorem validateInvoiceItems_rejects_nonpositive_unitAmount_witness :
    ("Item " ++ toString (1 + 1) ++ ": Valid unit amount is required") ∈
      (validateInvoiceItems [demoOkItem, demoDiscountItem]).errors ∧
    (validateInvoiceItems [demoOkItem, demoDiscountItem]).isValid = false :=
  validateInvoiceItems_rejects_nonpositive_unitAmount
    [demoOkItem, demoDiscountItem] 1 demoDiscountItem rfl (by decide)

theorem createMultiItemFromJSON_ok_items (today : Date) (env : BizEnv)
    (inp : MultiItemInput) (d : InvoiceData)
    (h : createMultiItemFromJSON today env inp = Except.ok d) :
    ∃ base, buildServiceItems today inp.services.length 0 inp.services = Except.ok base ∧
      d.items = base ++ discountItems inp.discount := by
  by_cases he : inp.services.isEmpty
  · simp [createMultiItemFromJSON, he] at h
  · simp only [createMultiItemFromJSON, he, Bool.false_eq_true, if_false] at h
    cases hb : buildServiceItems today inp.services.length 0 inp.services with
    | error e => rw [hb] at h; simp [Except.bind] at h
    | ok base =>
      rw [hb] at h
      simp only [Except.bind, Except.ok.injEq] at h
      subst h
      exact ⟨base, rfl, rfl⟩

/-- C2: on a successful multi-item normalization the items are the mapped
service items followed by the discount adjustment: exactly one synthetic
"Discount" line with unit amount the negative absolute value of the given
amount and quantity 1 when the amount is positive, and nothing otherwise. -/
theorem createMultiItemFromJSON_discount (today : Date) (env : BizEnv)
    (inp : MultiItemInput) (d : InvoiceData)
    (h : createMultiItemFromJSON today env inp = Except.ok d) :
    ∃ base, buildServiceItems today inp.services.length 0 inp.services = Except.ok base ∧
      d.items = base ++ discountItems inp.discount ∧
      (∀ dc, inp.discount = some dc → 0 < dc.amount →
        discountItems inp.discount =
          [{ name := "Discount"
             description := jsOr dc.description "Bulk order discount"
             quantity := 1
             unitAmount := -|dc.amount|
             currencyCode := "USD"
             tax := none
             discount := none }]) ∧
      (∀ dc, inp.discount = some dc → dc.amount ≤ 0 →
        discountItems inp.discount = []) ∧
      (inp.discount = none → discountItems inp.discount = []) := by
  obtain ⟨base, hb, hitems⟩ := createMultiItemFromJSON_ok_items today env inp d h
  refine ⟨base, hb, hitems, ?_, ?_, ?_⟩
  · intro dc hdc hpos
    rw [hdc]
    simp [discountItems, hpos, jsNeg_eq, mathAbs_eq]
  · intro dc hdc hle
    rw [hdc]
    simp [discountItems, not_lt.mpr hle]
  · intro h0
    rw [h0]
    rfl

/-- A multi-item input with one service and a 10-unit discount. -/
def demoMultiInput : MultiItemInput :=
  { customer := cust0, services := [svcGuest], discount := some ⟨10, ""⟩
    note := "", memo := "", reference := "" }

/-- The draft produced for `demoMultiInput`. -/
def demoMultiDraft : InvoiceData :=
  okOr emptyDraft (createMultiItemFromJSON t0 env0 demoMultiInput)

theorem createMultiItemFromJSON_discount_witness :
    (∃ base,
      buildServiceItems t0 demoMultiInput.services.length 0 demoMultiInput.services =
        Except.ok base ∧
      demoMultiDraft.items = base ++ discountItems demoMultiInput.discount ∧
      (∀ dc, demoMultiInput.discount = some dc → 0 < dc.amount →
        discountItems demoMultiInput.discount =
          [{ name := "Discount"
             description := jsOr dc.description "Bulk order discount"
             quantity := 1
             unitAmount := -|dc.amount|
             currencyCode := "USD"
             tax := none
             discount := none }]) ∧
      (∀ dc, demoMultiInput.discount = some dc → dc.amount ≤ 0 →
        discountItems demoMultiInput.discount = []) ∧
      (demoMultiInput.discount = none → discountItems demoMultiInput.discount = [])) ∧
    discountItems demoMultiInput.discount =
      [{ name := "Discount", description := "Bulk order discount", quantity := 1
         unitAmount := -10, currencyCode := "USD", tax := none, discount := none }] :=
  ⟨createMultiItemFromJSON_discount t0 env0 demoMultiInput demoMultiDraft rfl, by decide⟩

/-- The base name of a recognized service per the spec: guest posts map to
"Guest Post Publication" and link insertions to "Link Insertion Service"
(the success path of the normalizer only produces these two type tags). -/
def specServiceBaseName (s : ServiceInput) : String :=
  if s.stype = "guest_post" then "Guest Post Publication"
  else "Link Insertion Service"

theorem buildServiceItems_length (today : Date) (total : Nat) :
    ∀ (svcs : List ServiceInput) (idx : Nat) (base : List Item),
      buildServiceItems today total idx svcs = Except.ok base →
      base.length = svcs.length := by
  intro svcs
  induction svcs with
  | nil => intro idx base h; simp [buildServiceItems] at h; simp [← h]
  | cons s rest ih =>
    intro idx base h
    unfold buildServiceItems at h
    cases h1 : serviceToItem today total idx s with
    | error e => rw [h1] at h; simp at h
    | ok it =>
      rw [h1] at h
      cases h2 : buildServiceItems today total (idx + 1) rest with
      | error e => rw [h2] at h; simp at h
      | ok restItems =>
        rw [h2] at h
        simp only [Except.ok.injEq] at h
        subst h
        simp [ih (idx + 1) restItems h2]

theorem buildServiceItems_name (today : Date) (total : Nat) :
    ∀ (svcs : List ServiceInput) (idx : Nat) (base : List Item),
      buildServiceItems today total idx svcs = Except.ok base →
      ∀ (j : Nat) (it : Item), base.get? j = some it →
        ∃ s, svcs.get? j = some s ∧
          it.name = specServiceBaseName s ++ itemNumberSuffix total (idx + j) := by
  intro svcs
  induction svcs with
  | nil =>
    intro idx base h j it hget
    simp [buildServiceItems] at h
    subst h
    simp at hget
  | cons s rest ih =>
    intro idx base h j it hget
    unfold buildServiceItems at h
    cases h1 : serviceToItem today total idx s with
    | error e => rw [h1] at h; simp at h
    | ok it0 =>
      rw [h1] at h
      cases h2 : buildServiceItems today total (idx + 1) rest with
      | error e => rw [h2] at h; simp at h
      | ok restItems =>
        rw [h2] at h
        simp only [Except.ok.injEq] at h
        subst h
        cases j with
        | zero =>
          simp at hget
          subst hget
          refine ⟨s, rfl, ?_⟩
          unfold serviceToItem at h1
          by_cases hg : s.stype = "guest_post"
          · rw [if_pos hg] at h1
            simp only [Except.ok.injEq] at h1
            rw [← h1]
            simp [specServiceBaseName, hg]
          · rw [if_neg hg] at h1
            by_cases hl : s.stype = "link_insertion"
            · rw [if_pos hl] at h1
              simp only [Except.ok.injEq] at h1
              rw [← h1]
              simp [specServiceBaseName, hg]
            · rw [if_neg hl] at h1
              simp at h1
        | succ j =>
          have hrest : restItems.get? j = some it := by simpa using hget
          obtain ⟨s2, hs2, hname⟩ := ih (idx + 1) restItems h2 j it hrest
          refine ⟨s2, by simpa using hs2, ?_⟩
          rw [hname]
          rw [show idx + 1 + j = idx + (j + 1) from by omega]

/-- C5: on a successful multi-item normalization, the j-th generated item
(0-based j) is named after the base name of its service, suffixed with
" #<j+1>" exactly when more than one service was supplied. -/
theorem createMultiItemFromJSON_numbering (today : Date) (env : BizEnv)
    (inp : MultiItemInput) (d : InvoiceData)
    (h : createMultiItemFromJSON today env inp = Except.ok d)
    (j : Nat) (hj : j < inp.services.length) :
    ∃ s it, inp.services.get? j = some s ∧ d.items.get? j = some it ∧
      it.name = specServiceBaseName s ++
        (if 1 < inp.services.length then " #" ++ toString (j + 1) else "") := by
  obtain ⟨base, hb, hitems⟩ := createMultiItemFromJSON_ok_items today env inp d h
  have hlen : base.length = inp.services.length :=
    buildServiceItems_length today inp.services.length inp.services 0 base hb
  have hjb : j < base.length := by rw [hlen]; exact hj
  obtain ⟨it, hit⟩ : ∃ it, base.get? j = some it :=
    ⟨base.get ⟨j, hjb⟩, List.get?_eq_get hjb⟩
  obtain ⟨s, hs, hname⟩ :=
    buildServiceItems_name today inp.services.length inp.services 0 base hb j it hit
  refine ⟨s, it, hs, ?_, ?_⟩
  · rw [hitems, List.get?_append hjb]
    exact hit
  · rw [hname, Nat.zero_add]
    rfl

/-- A multi-item input with two services (guest post then link insertion). -/
def demoMultiInput2 : MultiItemInput :=
  { customer := cust0, services := [svcGuest, svcLink], discount := none
    note := "", memo := "", reference := "" }

/-- The draft produced for `demoMultiInput2`. -/
def demoMultiDraft2 : InvoiceData :=
  okOr emptyDraft (createMultiItemFromJSON t0 env0 demoMultiInput2)

theorem createMultiItemFromJSON_numbering_witness :
    (∃ s it, demoMultiInput2.services.get? 1 = some s ∧
      demoMultiDraft2.items.get? 1 = some it ∧
      it.name = specServiceBaseName s ++
        (if 1 < demoMultiInput2.services.length then " #" ++ toString (1 + 1) else "")) ∧
    (demoMultiDraft2.items.get? 0).map Item.name = some "Guest Post Publication #1" ∧
    (demoMultiDraft2.items.get? 1).map Item.name = some "Link Insertion Service #2" ∧
    (demoMultiDraft.items.get? 0).map Item.name = some "Guest Post Publication" :=
  ⟨createMultiItemFromJSON_numbering t0 env0 demoMultiInput2 demoMultiDraft2 rfl 1 (by decide),
    by decide, by decide, by decide⟩

/-- A draft with an explicit issue date and no explicit due date. -/
def demoC3Draft : InvoiceData := { emptyDraft with invoiceDate := "2024-01-10" }

/-- C3 counterexample: a draft with no explicit due date whose explicit issue
date is 2024-01-10, built on a current date of 2024-01-20: the due date of the
payload is 2024-01-23 (current date + 3), not the issue date + 3 = 2024-01-13. -/
theorem dueDate_not_issueDate_plus_three :
    demoC3Draft.dueDate = "" ∧
    (createPayPalInvoicePayload ⟨2024, 1, 20⟩ "INV-1" demoC3Draft).detail.invoice_date =
      "2024-01-10" ∧
    (createPayPalInvoicePayload ⟨2024, 1, 20⟩ "INV-1" demoC3Draft).detail.payment_term.due_date =
      "2024-01-23" ∧
    formatDate (addDays ⟨2024, 1, 10⟩ 3) = "2024-01-13" ∧
    (createPayPalInvoicePayload ⟨2024, 1, 20⟩ "INV-1" demoC3Draft).detail.payment_term.due_date ≠
      formatDate (addDays ⟨2024, 1, 10⟩ 3) :=
  ⟨rfl, by decide, by decide, by decide, by decide⟩

/-- C3 (amended): when the draft leaves both the issue date and the due date
unspecified, the issue date of the payload is the current date and its payment-term
due date is the current date plus 3 days — so the due date equals the issue
date plus 3 days in exactly this defaulted case. -/
theorem dueDate_default_currentDate_plus_three (today : Date) (g : String)
    (d : InvoiceData) (hIssue : d.invoiceDate = "") (hDue : d.dueDate = "") :
    (createPayPalInvoicePayload today g d).detail.invoice_date = formatDate today ∧
    (createPayPalInvoicePayload today g d).detail.payment_term.due_date =
      formatDate (addDays today 3) := by
  constructor <;> simp [createPayPalInvoicePayload, jsOr, hIssue, hDue]

theorem dueDate_default_currentDate_plus_three_witness :
    ((createPayPalInvoicePayload ⟨2024, 1, 10⟩ "INV-1" emptyDraft).detail.invoice_date =
      formatDate ⟨2024, 1, 10⟩ ∧
    (createPayPalInvoicePayload ⟨2024, 1, 10⟩ "INV-1" emptyDraft).detail.payment_term.due_date =
      formatDate (addDays ⟨2024, 1, 10⟩ 3)) ∧
    (createPayPalInvoicePayload ⟨2024, 1, 10⟩ "INV-1" emptyDraft).detail.payment_term.due_date =
      "2024-01-13" :=
  ⟨dueDate_default_currentDate_plus_three ⟨2024, 1, 10⟩ "INV-1" emptyDraft rfl rfl, by decide⟩

/-- A draft whose customer phone contains no digit at all. -/
def demoC4Draft : InvoiceData :=
  { emptyDraft with customer := { emptyDraft.customer with phone := "abc" } }

/-- C4 counterexample: for the raw phone "abc" the stripped national number
is empty, yet the payload still carries a phone entry (with an empty national
number) instead of omitting it — the builder tests the raw string, not the
stripped result. -/
theorem phone_not_omitted_when_stripped_empty :
    stripNonDigits "abc" = "" ∧
    (createPayPalInvoicePayload t0 "INV-1" demoC4Draft).primary_recipients.map
        BillingInfo.phones =
      [[{ country_code := "1", national_number := "", phone_type := "HOME" }]] ∧
    ([{ country_code := "1", national_number := "", phone_type := "HOME" }] :
      List PayloadPhone) ≠ [] :=
  ⟨rfl, by decide, by decide⟩

/-- C4 (amended): the builder strips all non-digit characters from the raw
phone string to form the national number, and the phone entry is omitted
exactly when the raw phone string is empty; a non-empty raw string always
yields one entry, whose national number may be empty. -/
theorem phone_entry_iff_raw_phone_nonempty (today : Date) (g : String)
    (d : InvoiceData) :
    ∃ bi, (createPayPalInvoicePayload today g d).primary_recipients = [bi] ∧
      bi.phones =
        (if d.customer.phone = "" then []
         else [{ country_code := "1"
                 national_number := stripNonDigits d.customer.phone
                 phone_type := "HOME" }]) :=
  ⟨_, rfl, rfl⟩

/-- C7: an input document with neither a `service` nor a `services` field, or
with an empty `services` array, makes the normalizer fail with its shape
error, and the preview flow returns that same error for every validator and
builder — neither is ever consulted. -/
theorem parseInvoiceData_shape_failure (today : Date) (env : BizEnv)
    (j : JsonInput) (validate : InvoiceData → ValidationResult)
    (build : InvoiceData → InvoicePayload)
    (h : (j.services = none ∧ j.service = none) ∨ j.services = some []) :
    ∃ e, parseInvoiceData today env j = Except.error e ∧
      previewFlow validate build today env j = Except.error e := by
  rcases h with ⟨hs, hsv⟩ | hs
  · refine ⟨invalidShapeMsg, ?_, ?_⟩ <;>
      cases hc : j.customer <;>
        simp [parseInvoiceData, previewFlow, hs, hsv, hc]
  · refine ⟨emptyServicesMsg, ?_, ?_⟩ <;>
      cases hc : j.customer <;>
        simp [parseInvoiceData, previewFlow, hs, hc, createExampleFromJSON,
          createMultiItemFromJSON]

/-- The failing input `{services: []}`. -/
def demoEmptyServicesInput : JsonInput :=
  { customer := none, service := none, services := some [], discount := none
    note := "", memo := "", reference := "" }

theorem parseInvoiceData_shape_failure_witness :
    (∃ e, parseInvoiceData t0 env0 demoEmptyServicesInput = Except.error e ∧
      previewFlow validateCompleteInvoice (createPayPalInvoicePayload t0 "INV-1")
        t0 env0 demoEmptyServicesInput = Except.error e) ∧
    parseInvoiceData t0 env0 demoEmptyServicesInput = Except.error emptyServicesMsg :=
  ⟨parseInvoiceData_shape_failure t0 env0 demoEmptyServicesInput
    validateCompleteInvoice (createPayPalInvoicePayload t0 "INV-1") (Or.inr rfl),
    rfl⟩

/-- C8: when the create step succeeds, create-and-send performs the create
call, a fixed 2000 ms delay, then the send call, and returns one aggregated
record carrying the create-side fields, a `sent` flag equal to the send-side
success, and the send-side error; a send failure therefore still reports the
created invoice identifier rather than a bare failure record. -/
theorem createAndSendInvoice_aggregation (cr : CreateResult) (sr : SendResult)
    (h : cr.success = true) :
    createAndSendInvoice cr sr =
      (CreateAndSendOutcome.completed
        { success := sr.success
          invoiceId := cr.invoiceId
          invoiceNumber := cr.invoiceNumber
          totalAmount := cr.totalAmount
          currency := cr.currency
          invoicerViewUrl := cr.invoicerViewUrl
          recipientViewUrl := cr.recipientViewUrl
          sent := sr.success
          sendError := sr.error },
        [OrchestratorAction.createCall, OrchestratorAction.delayMs 2000,
          OrchestratorAction.sendCall]) := by
  simp [createAndSendInvoice, h]

/-- A successful create result. -/
def demoCreateOk : CreateResult :=
  { success := true, invoiceId := "INV2-AAAA-BBBB", invoiceNumber := "INV-20240110-001"
    status := "DRAFT", invoicerViewUrl := "https://paypal.example/i"
    recipientViewUrl := "https://paypal.example/r", totalAmount := "40.00"
    currency := "USD", error := none }

/-- A failed send result. -/
def demoSendFail : SendResult :=
  { success := false, error := some "422 Unprocessable Entity" }

theorem createAndSendInvoice_aggregation_witness :
    createAndSendInvoice demoCreateOk demoSendFail =
      (CreateAndSendOutcome.completed
        { success := false
          invoiceId := "INV2-AAAA-BBBB"
          invoiceNumber := "INV-20240110-001"
          totalAmount := "40.00"
          currency := "USD"
          invoicerViewUrl := "https://paypal.example/i"
          recipientViewUrl := "https://paypal.example/r"
          sent := false
          sendError := some "422 Unprocessable Entity" },
        [OrchestratorAction.createCall, OrchestratorAction.delayMs 2000,
          OrchestratorAction.sendCall]) :=
  createAndSendInvoice_aggregation demoCreateOk demoSendFail rfl

/-- C9: every draft item with positive unit amount appears in the built
payload with its value rendered by the two-decimal fixed formatter — a digit
string, one decimal point, and exactly two digits after it — and with its
quantity rendered as a plain number string. -/
theorem payload_monetary_rendering (today : Date) (g : String)
    (d : InvoiceData) (it : Item) (hmem : it ∈ d.items)
    (hpos : 0 < it.unitAmount) :
    itemToPayload d.currencyCode it ∈ (createPayPalInvoicePayload today g d).items ∧
    (itemToPayload d.currencyCode it).unit_amount.value = toFixed2 it.unitAmount ∧
    hasExactlyTwoFracDigits ((itemToPayload d.currencyCode it).unit_amount.value) ∧
    (itemToPayload d.currencyCode it).quantity = jsNumToString it.quantity := by
  refine ⟨List.mem_map_of_mem _ hmem, rfl, ?_, rfl⟩
  exact toFixed2_twoFracDigits it.unitAmount (le_of_lt hpos)

/-- An item priced 19.999. -/
def demoC9Item : Item :=
  { name := "Guest Post Publication", description := "", quantity := 1
    unitAmount := mkRat 19999 1000, currencyCode := "USD", tax := none
    discount := none }

/-- A draft holding the 19.999-priced item. -/
def demoC9Draft : InvoiceData :=
  { emptyDraft with items := [demoC9Item], currencyCode := "USD" }

theorem payload_monetary_rendering_witness :
    (itemToPayload demoC9Draft.currencyCode demoC9Item ∈
        (createPayPalInvoicePayload t0 "INV-1" demoC9Draft).items ∧
      (itemToPayload demoC9Draft.currencyCode demoC9Item).unit_amount.value =
        toFixed2 demoC9Item.unitAmount ∧
      hasExactlyTwoFracDigits
        ((itemToPayload demoC9Draft.currencyCode demoC9Item).unit_amount.value) ∧
      (itemToPayload demoC9Draft.currencyCode demoC9Item).quantity =
        jsNumToString demoC9Item.quantity) ∧
    (itemToPayload demoC9Draft.currencyCode demoC9Item).unit_amount.value = "20.00" ∧
    toFixed2 40 = "40.00" ∧
    (itemToPayload demoC9Draft.currencyCode demoC9Item).quantity = "1" :=
  ⟨payload_monetary_rendering t0 "INV-1" demoC9Draft demoC9Item (by decide) (by decide),
    by decide, by decide, by decide⟩

/-- An accepted input document: customer plus a one-element services array. -/
def demoJsonOk : JsonInput :=
  { customer := some cust0, service := none, services := some [svcGuest]
    discount := none, note := "", memo := "", reference := "" }

/-- The canonical draft the normalizer produces for `demoJsonOk`. -/
def demoParsedDraft : InvoiceData :=
  okOr emptyDraft (parseInvoiceData t0 env0 demoJsonOk)

/-- C10 counterexample: the normalizer accepts `demoJsonOk`, but applying it
again to the canonical output shape (which carries `items` and no
`service`/`services` member) fails with the invalid-shape error instead of
returning the record unchanged. -/
theorem renormalization_not_identity :
    parseInvoiceData t0 env0 demoJsonOk = Except.ok demoParsedDraft ∧
    parseInvoiceData t0 env0 (draftAsJsonInput demoParsedDraft) =
      Except.error invalidShapeMsg :=
  ⟨rfl, rfl⟩

/-- C10 (amended): for every input the normalizer accepts, applying the
normalizer to the shape of the produced draft fails with the invalid-shape
error (the canonical output has no `service` or `services` field), so
re-normalization is an error rather than a no-op. -/
theorem renormalization_fails_shape_check (t1 : Date) (env1 : BizEnv)
    (j : JsonInput) (t2 : Date) (env2 : BizEnv) (d : InvoiceData)
    (h : parseInvoiceData t1 env1 j = Except.ok d) :
    parseInvoiceData t2 env2 (draftAsJsonInput d) = Except.error invalidShapeMsg := rfl

theorem renormalization_fails_shape_check_witness :
    parseInvoiceData t0 env0 (draftAsJsonInput demoParsedDraft) =
      Except.error invalidShapeMsg :=
  renormalization_fails_shape_check t0 env0 demoJsonOk t0 env0 demoParsedDraft rfl
